import Mathlib

/-!
Verification of the ClinicalBERT dashboard interaction model, a shallow
embedding of `app/page.tsx` (the `ClinicalBERTDashboard` component).

The component owns four pieces of React state: `activeTab` (a string naming
the active section), `loading` (the single in-flight flag), `results`
(the last stored mock response, initially null), and `formData` (eight
string-valued form fields). The operations are `setActiveTab` (tab switch),
`loadExample` (a switch on the section name that bulk-sets the canned
example values), and `callAPI` (sets `loading`, waits, stores the canned
response for the endpoint from a static table, clears `loading`).
Each section's result panel renders its result branch exactly when
`results && activeTab === sec` holds, and the placeholder otherwise.
-/

namespace ClinicalBERT

/-- Form fields held by the dashboard: the `formData` useState object,
with its eight string fields in source order. -/
structure FormData where
  patientId : String
  clinicalNotes : String
  clinicalText : String
  searchQuery : String
  similarityThreshold : String
  cohortCriteria : String
  startDate : String
  endDate : String
  deriving Repr, DecidableEq

/-- Initial form state: every field starts as the empty string. -/
def initialFormData : FormData :=
  { patientId := "", clinicalNotes := "", clinicalText := "", searchQuery := ""
    similarityThreshold := "", cohortCriteria := "", startDate := "", endDate := "" }

namespace EXAMPLE_DATA

/-- EXAMPLE_DATA.readmission.patientId -/
def readmission_patientId : String := "P123"

/-- EXAMPLE_DATA.readmission.clinicalNotes -/
def readmission_clinicalNotes : String :=
  "The 65-year-old male patient admitted for pneumonia has been treated and is now ready for discharge. No acute complications noted. Monitor for readmission risk."

/-- EXAMPLE_DATA.riskTrajectory (unused by the operations, kept for fidelity) -/
def riskTrajectory : List String :=
  ["Day 1: Patient admitted with acute heart failure symptoms. Immediate treatment started.",
   "Day 2: Clinical improvements noted, but risk factors remain present.",
   "Day 3: Stable condition; discharge planning initiated."]

/-- EXAMPLE_DATA.entities.clinicalText -/
def entities_clinicalText : String :=
  "Patient diagnosed with type 2 diabetes mellitus and hypertension. Prescribed metformin and lisinopril."

/-- EXAMPLE_DATA.search.query -/
def search_query : String :=
  "patients with congestive heart failure treated with beta blockers"

/-- EXAMPLE_DATA.cohort.criteria -/
def cohort_criteria : String := "acute kidney injury and sepsis"

/-- EXAMPLE_DATA.cohort.notes (unused by the operations, kept for fidelity) -/
def cohort_notes : List String :=
  ["Patient 1: Developed acute kidney injury secondary to septic shock.",
   "Patient 2: No signs of sepsis, but elevated creatinine.",
   "Patient 3: Diagnosed with sepsis and treated with IV antibiotics."]

end EXAMPLE_DATA

/-- The `loadExample` handler: a switch on the section name. Each case
spreads the previous form state and overwrites only the listed fields;
an unknown section falls through the switch and changes nothing. -/
def loadExample (sec : String) (prev : FormData) : FormData :=
  if sec = "readmission" then
    { prev with
      patientId := EXAMPLE_DATA.readmission_patientId
      clinicalNotes := EXAMPLE_DATA.readmission_clinicalNotes }
  else if sec = "entities" then
    { prev with clinicalText := EXAMPLE_DATA.entities_clinicalText }
  else if sec = "search" then
    { prev with
      searchQuery := EXAMPLE_DATA.search_query
      similarityThreshold := "0.8" }
  else if sec = "cohort" then
    { prev with cohortCriteria := EXAMPLE_DATA.cohort_criteria }
  else
    prev

/-- One entry of the mock entity-extraction response. -/
structure Entity where
  text : String
  label : String
  confidence : Rat
  deriving Repr, DecidableEq

/-- One entry of the mock similar-case-search response. -/
structure SimilarCase where
  patient_id : String
  similarity : Rat
  diagnosis : String
  deriving Repr, DecidableEq

/-- Demographics block of the mock cohort response. -/
structure Demographics where
  avg_age : Rat
  gender_ratio : String
  deriving Repr, DecidableEq

/-- The stored result value: a tagged union of the four mock response
shapes (one constructor per endpoint of the `mockResponses` table). -/
inductive Result where
  | readmissionResult (risk_score : Rat) (risk_level : String) (confidence : Rat)
      (factors : List String) (recommendation : String)
  | entitiesResult (entities : List Entity)
  | searchResult (similar_cases : List SimilarCase)
  | cohortResult (cohort_size : Nat) (criteria_match : Rat) (demographics : Demographics)
  deriving Repr, DecidableEq

/-- The endpoint a stored Result shape belongs to (the key of the
`mockResponses` table that produces it). -/
def resultTag : Result → String
  | Result.readmissionResult _ _ _ _ _ => "readmission"
  | Result.entitiesResult _ => "entities"
  | Result.searchResult _ => "search"
  | Result.cohortResult _ _ _ => "cohort"

/-- The static `mockResponses` lookup table inside `callAPI`, keyed by the
endpoint name; `none` models the undefined lookup for an unknown key. -/
def mockResponses (endpoint : String) : Option Result :=
  if endpoint = "readmission" then
    some (Result.readmissionResult 0.73 "High" 0.89
      ["Previous readmissions", "Comorbidities", "Length of stay"]
      "Consider discharge planning intervention")
  else if endpoint = "entities" then
    some (Result.entitiesResult
      [{ text := "type 2 diabetes mellitus", label := "CONDITION", confidence := 0.95 },
       { text := "hypertension", label := "CONDITION", confidence := 0.93 },
       { text := "metformin", label := "MEDICATION", confidence := 0.92 },
       { text := "lisinopril", label := "MEDICATION", confidence := 0.9 }])
  else if endpoint = "search" then
    some (Result.searchResult
      [{ patient_id := "P001", similarity := 0.91,
         diagnosis := "Congestive Heart Failure with Beta Blocker Therapy" },
       { patient_id := "P002", similarity := 0.87,
         diagnosis := "Heart Failure with Reduced Ejection Fraction" },
       { patient_id := "P003", similarity := 0.84,
         diagnosis := "Cardiomyopathy on Beta Blocker Treatment" }])
  else if endpoint = "cohort" then
    some (Result.cohortResult 247 0.82
      { avg_age := 67, gender_ratio := "52% F, 48% M" })
  else
    none

/-- The four section names offered by the tab list. -/
def sections : List String := ["readmission", "entities", "search", "cohort"]

/-- Dashboard state: the four useState pieces of `ClinicalBERTDashboard`. -/
structure DashState where
  activeTab : String
  loading : Bool
  results : Option Result
  formData : FormData
  deriving Repr, DecidableEq

/-- Initial dashboard state: tab `readmission`, not loading, no results,
empty form. -/
def initState : DashState :=
  { activeTab := "readmission", loading := false, results := none
    formData := initialFormData }

/-- Tab switch: `setActiveTab` via the Tabs onValueChange handler. -/
def selectSection (sec : String) (st : DashState) : DashState :=
  { st with activeTab := sec }

/-- The Load Example button handler for a section, lifted to the
dashboard state: it only updates `formData`. -/
def loadExampleOp (sec : String) (st : DashState) : DashState :=
  { st with formData := loadExample sec st.formData }

/-- The mock `callAPI(endpoint, data)` function, run to completion:
set `loading`, (simulated wait), store the canned response for the
endpoint, clear `loading`. The `data` argument is accepted (the source
types it `any`; every call site passes an empty object) but never read. -/
def callAPI {α : Type} (endpoint : String) (data : α) (st : DashState) : DashState :=
  let started := { st with loading := true }
  let stored := { started with results := mockResponses endpoint }
  { stored with loading := false }

/-- A submit button press for a section, run to completion: the source
invokes `callAPI(sec, \x7b\x7d)` with an empty payload object. -/
def submit (sec : String) (st : DashState) : DashState :=
  callAPI sec () st

/-- The render guard of a section's result panel: the source renders the
result branch exactly when `results && activeTab === sec` (one such
conditional per section, each with its own literal), and the placeholder
otherwise. -/
def panelShowsResult (sec : String) (st : DashState) : Bool :=
  st.results.isSome && (st.activeTab == sec)

/-- A sequence of tab switches, applied left to right. -/
def selectSeq (secs : List String) (st : DashState) : DashState :=
  secs.foldl (fun acc sec => selectSection sec acc) st

/-- State reached by completing a readmission submission and then
switching to the entities tab. -/
def crossState : DashState :=
  selectSection "entities" (submit "readmission" initState)

/-- Machine state of the event-level dashboard model: the four useState
pieces plus `inflight`, an instrumentation list recording the sections of
submissions that have started (the `setLoading(true)` phase of `callAPI`)
and not yet completed. The source itself keeps only the `loading` flag;
`inflight` is ghost state that lets the at-most-one-pending invariant be
stated without being vacuous. -/
structure MState where
  activeTab : String
  loading : Bool
  results : Option Result
  formData : FormData
  inflight : List String
  deriving Repr, DecidableEq

/-- Initial machine state, matching the useState initialisers. -/
def initMState : MState :=
  { activeTab := "readmission", loading := false, results := none
    formData := initialFormData, inflight := [] }

/-- User-visible and timer events of the dashboard. -/
inductive Event where
  | select (sec : String)
  | loadEx (sec : String)
  | startSubmit (sec : String)
  | finishSubmit (sec : String)
  deriving Repr, DecidableEq

/-- Labelled step relation of the dashboard. Tab switches and Load
Example clicks are always enabled (those controls carry no `disabled`
attribute). A submit can start only while `loading` is false, because
every submit button is rendered with `disabled=loading`; starting sets
`loading` and records the submission as in flight. A pending submission
finishes when its timer fires: the canned response is stored and
`loading` is cleared. -/
inductive Step : MState → Event → MState → Prop where
  | select (st : MState) (sec : String) :
      Step st (Event.select sec) { st with activeTab := sec }
  | loadEx (st : MState) (sec : String) :
      Step st (Event.loadEx sec) { st with formData := loadExample sec st.formData }
  | startSubmit (st : MState) (sec : String) (hGuard : st.loading = false) :
      Step st (Event.startSubmit sec)
        { st with loading := true, inflight := sec :: st.inflight }
  | finishSubmit (st : MState) (sec : String) (rest : List String)
      (hIn : st.inflight = sec :: rest) :
      Step st (Event.finishSubmit sec)
        { st with loading := false, results := mockResponses sec, inflight := rest }

/-- States reachable from the initial machine state. -/
inductive Reachable : MState → Prop where
  | init : Reachable initMState
  | step (st st2 : MState) (e : Event) :
      Reachable st → Step st e st2 → Reachable st2

/-- A single step preserves the in-flight invariant: at most one pending
submission, and `loading` is set exactly while one is pending. -/
theorem step_preserves_inflight_inv (st st2 : MState) (e : Event)
    (hstep : Step st e st2)
    (ih : st.inflight.length ≤ 1 ∧ (st.loading = true ↔ st.inflight ≠ [])) :
    st2.inflight.length ≤ 1 ∧ (st2.loading = true ↔ st2.inflight ≠ []) := by
  cases hstep with
  | select sec => simpa using ih
  | loadEx sec => simpa using ih
  | startSubmit sec hGuard =>
    have hnil : st.inflight = [] := by
      by_contra hne
      have := ih.2.mpr hne
      rw [hGuard] at this
      exact Bool.false_ne_true this
    simp [hnil]
  | finishSubmit sec rest hIn =>
    have hlen := ih.1
    rw [hIn] at hlen
    have hrest : rest = [] := by
      simpa [List.length_eq_zero] using Nat.le_of_succ_le_succ hlen
    simp [hrest]

/-- Every reachable state satisfies the in-flight invariant. -/
theorem reachable_inflight_inv (st : MState) (h : Reachable st) :
    st.inflight.length ≤ 1 ∧ (st.loading = true ↔ st.inflight ≠ []) := by
  induction h with
  | init => simp [initMState]
  | step st st2 e hr hstep ih => exact step_preserves_inflight_inv st st2 e hstep ih

/-- The machine state after one readmission submission has started. -/
def pendingMState : MState :=
  { activeTab := "readmission", loading := true, results := none
    formData := initialFormData, inflight := ["readmission"] }

/-- pendingMState is reachable: one startSubmit step from the initial
state. -/
theorem pendingMState_reachable : Reachable pendingMState :=
  Reachable.step initMState pendingMState (Event.startSubmit "readmission")
    Reachable.init (Step.startSubmit initMState "readmission" rfl)

/-- C3: for every endpoint, any two payloads (of any types — the source
types the parameter `any`) and any two starting dashboard states, running
`callAPI` to completion stores the same Result, namely the static table
entry for the endpoint: the stored Result does not depend on any submitted
input or form content. -/
theorem callAPI_result_input_independent {α β : Type} (endpoint : String)
    (d1 : α) (d2 : β) (st1 st2 : DashState) :
    (callAPI endpoint d1 st1).results = (callAPI endpoint d2 st2).results ∧
    (callAPI endpoint d1 st1).results = mockResponses endpoint :=
  ⟨rfl, rfl⟩

/-- C4: for every section, `loadExample` sets exactly that section's
canned fields (patientId and clinicalNotes for readmission; clinicalText
for entities; searchQuery and similarityThreshold for search;
cohortCriteria for cohort) to the fixed example values and leaves each of
the remaining fields exactly as it was in the starting form state. -/
theorem loadExample_sets_exactly_canned_fields (st : FormData) :
    ((loadExample "readmission" st).patientId = EXAMPLE_DATA.readmission_patientId ∧
     (loadExample "readmission" st).clinicalNotes = EXAMPLE_DATA.readmission_clinicalNotes ∧
     (loadExample "readmission" st).clinicalText = st.clinicalText ∧
     (loadExample "readmission" st).searchQuery = st.searchQuery ∧
     (loadExample "readmission" st).similarityThreshold = st.similarityThreshold ∧
     (loadExample "readmission" st).cohortCriteria = st.cohortCriteria ∧
     (loadExample "readmission" st).startDate = st.startDate ∧
     (loadExample "readmission" st).endDate = st.endDate) ∧
    ((loadExample "entities" st).clinicalText = EXAMPLE_DATA.entities_clinicalText ∧
     (loadExample "entities" st).patientId = st.patientId ∧
     (loadExample "entities" st).clinicalNotes = st.clinicalNotes ∧
     (loadExample "entities" st).searchQuery = st.searchQuery ∧
     (loadExample "entities" st).similarityThreshold = st.similarityThreshold ∧
     (loadExample "entities" st).cohortCriteria = st.cohortCriteria ∧
     (loadExample "entities" st).startDate = st.startDate ∧
     (loadExample "entities" st).endDate = st.endDate) ∧
    ((loadExample "search" st).searchQuery = EXAMPLE_DATA.search_query ∧
     (loadExample "search" st).similarityThreshold = "0.8" ∧
     (loadExample "search" st).patientId = st.patientId ∧
     (loadExample "search" st).clinicalNotes = st.clinicalNotes ∧
     (loadExample "search" st).clinicalText = st.clinicalText ∧
     (loadExample "search" st).cohortCriteria = st.cohortCriteria ∧
     (loadExample "search" st).startDate = st.startDate ∧
     (loadExample "search" st).endDate = st.endDate) ∧
    ((loadExample "cohort" st).cohortCriteria = EXAMPLE_DATA.cohort_criteria ∧
     (loadExample "cohort" st).patientId = st.patientId ∧
     (loadExample "cohort" st).clinicalNotes = st.clinicalNotes ∧
     (loadExample "cohort" st).clinicalText = st.clinicalText ∧
     (loadExample "cohort" st).searchQuery = st.searchQuery ∧
     (loadExample "cohort" st).similarityThreshold = st.similarityThreshold ∧
     (loadExample "cohort" st).startDate = st.startDate ∧
     (loadExample "cohort" st).endDate = st.endDate) :=
  ⟨⟨rfl, rfl, rfl, rfl, rfl, rfl, rfl, rfl⟩,
   ⟨rfl, rfl, rfl, rfl, rfl, rfl, rfl, rfl⟩,
   ⟨rfl, rfl, rfl, rfl, rfl, rfl, rfl, rfl⟩,
   ⟨rfl, rfl, rfl, rfl, rfl, rfl, rfl, rfl⟩⟩

/-- C5: in the readmission scenario started from the initial state,
loading the readmission example sets patientId to P123 and clinicalNotes
to the canned pneumonia note, and completing the readmission submission
stores exactly the canned readmission Result of the spec scenario. -/
theorem readmission_scenario_canned_result :
    (loadExampleOp "readmission" (selectSection "readmission" initState)).formData.patientId
      = "P123" ∧
    (loadExampleOp "readmission" (selectSection "readmission" initState)).formData.clinicalNotes
      = "The 65-year-old male patient admitted for pneumonia has been treated and is now ready for discharge. No acute complications noted. Monitor for readmission risk." ∧
    (submit "readmission"
        (loadExampleOp "readmission" (selectSection "readmission" initState))).results
      = some (Result.readmissionResult 0.73 "High" 0.89
          ["Previous readmissions", "Comorbidities", "Length of stay"]
          "Consider discharge planning intervention") :=
  ⟨rfl, rfl, rfl⟩

/-- C6: from any starting state, completing a search submission stores a
Result holding exactly three similar cases whose similarity values are
0.91, 0.87 and 0.84 in that order, which is strictly descending. -/
theorem search_results_three_descending (st : DashState) :
    ∃ a b c : SimilarCase,
      (submit "search" st).results = some (Result.searchResult [a, b, c]) ∧
      a.similarity = 0.91 ∧ b.similarity = 0.87 ∧ c.similarity = 0.84 ∧
      c.similarity < b.similarity ∧ b.similarity < a.similarity := by
  refine ⟨{ patient_id := "P001", similarity := 0.91,
            diagnosis := "Congestive Heart Failure with Beta Blocker Therapy" },
          { patient_id := "P002", similarity := 0.87,
            diagnosis := "Heart Failure with Reduced Ejection Fraction" },
          { patient_id := "P003", similarity := 0.84,
            diagnosis := "Cardiomyopathy on Beta Blocker Treatment" },
          rfl, rfl, rfl, rfl, ?_, ?_⟩ <;> norm_num

/-- C7: any finite sequence of tab switches leaves every form field, the
stored Result and the loading flag unchanged: selectSection only moves
the active tab, and it is a total function (it always succeeds). -/
theorem selectSeq_preserves_form_and_results (secs : List String) (st : DashState) :
    (selectSeq secs st).formData = st.formData ∧
    (selectSeq secs st).results = st.results ∧
    (selectSeq secs st).loading = st.loading := by
  induction secs generalizing st with
  | nil => exact ⟨rfl, rfl, rfl⟩
  | cons a l ih =>
    simpa [selectSeq, selectSection] using ih (selectSection a st)

/-- C8: for every section string (the four known ones and any unknown
one) and every starting form state, applying `loadExample` twice yields
the same form state as applying it once. -/
theorem loadExample_idempotent (sec : String) (st : FormData) :
    loadExample sec (loadExample sec st) = loadExample sec st := by
  unfold loadExample
  split_ifs <;> rfl

/-- C9: for every section, a completed submission leaves every form field
and the active tab unchanged; it only ends with the loading flag cleared
and the canned Result for the section stored. -/
theorem submit_frame (sec : String) (st : DashState) :
    (submit sec st).formData = st.formData ∧
    (submit sec st).activeTab = st.activeTab ∧
    (submit sec st).loading = false ∧
    (submit sec st).results = mockResponses sec :=
  ⟨rfl, rfl, rfl, rfl⟩

/-- C10: for every string outside the four section names, the Load
Example handler is a no-op on the whole dashboard state: the switch has
no default branch, so the form (and everything else) is unchanged. -/
theorem loadExample_unknown_noop (sec : String) (st : DashState)
    (h : sec ∉ sections) :
    loadExampleOp sec st = st := by
  simp only [sections, List.mem_cons, List.mem_singleton, not_or] at h
  obtain ⟨h1, h2, h3, h4⟩ := h
  simp [loadExampleOp, loadExample, h1, h2, h3, h4]

/-- C10 witness: the string bogus is not a section name and loading its
example from the initial state changes nothing. -/
theorem loadExample_unknown_noop_witness :
    "bogus" ∉ sections ∧ loadExampleOp "bogus" initState = initState :=
  ⟨by decide, loadExample_unknown_noop "bogus" initState (by decide)⟩

/-- C1 counterexample: the rendering rule of the claim is false on the
code. In the concrete reachable state obtained by completing a
readmission submission and then switching to the entities tab, the
entities panel takes its result branch (the guard only checks that some
Result exists and that the tab is active) even though the stored Result
is tagged readmission, not entities. -/
theorem render_rule_requires_tag_counterexample :
    ¬ (∀ (sec : String) (st : DashState),
        panelShowsResult sec st = true →
          ∃ r, st.results = some r ∧ resultTag r = sec ∧ st.activeTab = sec) := by
  intro h
  obtain ⟨r, hr, htag, -⟩ := h "entities" crossState rfl
  have hres : crossState.results
      = some (Result.readmissionResult 0.73 "High" 0.89
          ["Previous readmissions", "Comorbidities", "Length of stay"]
          "Consider discharge planning intervention") := rfl
  rw [hres] at hr
  injection hr with hr2
  rw [← hr2] at htag
  simp only [resultTag] at htag
  exact absurd htag (by decide)

/-- C1 (amended): after a completed submission for a valid section the
stored Result is the canned Result whose tag is that section; but a
section's panel renders its result branch exactly when some Result exists
(of whatever tag) and that section is the active tab — the guard never
inspects the stored Result's tag. -/
theorem submit_tags_result_and_render_guard_untagged (sec : String)
    (h : sec ∈ sections) :
    (∀ st : DashState, ∃ r, (submit sec st).results = some r ∧ resultTag r = sec) ∧
    (∀ (p : String) (st : DashState),
        panelShowsResult p st = true ↔ (st.results.isSome = true ∧ st.activeTab = p)) := by
  constructor
  · intro st
    simp only [sections, List.mem_cons, List.not_mem_nil, or_false] at h
    rcases h with rfl | rfl | rfl | rfl
    · exact ⟨_, rfl, rfl⟩
    · exact ⟨_, rfl, rfl⟩
    · exact ⟨_, rfl, rfl⟩
    · exact ⟨_, rfl, rfl⟩
  · intro p st
    simp [panelShowsResult, Bool.and_eq_true, beq_iff_eq]

/-- C1 witness: for the concrete section readmission, a completed
submission from the initial state stores a readmission-tagged Result, and
the render guard equivalence holds at the concrete cohort panel in the
initial state. -/
theorem submit_tags_result_witness :
    "readmission" ∈ sections ∧
    (∃ r, (submit "readmission" initState).results = some r
        ∧ resultTag r = "readmission") ∧
    (panelShowsResult "cohort" initState = true ↔
      (initState.results.isSome = true ∧ initState.activeTab = "cohort")) := by
  have h := submit_tags_result_and_render_guard_untagged "readmission" (by decide)
  exact ⟨by decide, h.1 initState, h.2 "cohort" initState⟩

/-- C2: in every reachable state of the event-level dashboard model, at
most one submission is in flight (pending), and while one is pending no
startSubmit step is possible for any section: the single loading flag
disables every submit control. -/
theorem at_most_one_pending_submission (st : MState) (h : Reachable st) :
    st.inflight.length ≤ 1 ∧
    (st.inflight ≠ [] →
      ∀ (sec : String) (st2 : MState), ¬ Step st (Event.startSubmit sec) st2) := by
  have inv := reachable_inflight_inv st h
  refine ⟨inv.1, fun hne sec st2 hstep => ?_⟩
  cases hstep with
  | startSubmit sec hGuard =>
    have := inv.2.mpr hne
    rw [hGuard] at this
    exact Bool.false_ne_true this

/-- C2 witness: in the concrete reachable state with one readmission
submission pending, at most one submission is in flight and no second
submission can start. -/
theorem at_most_one_pending_submission_witness :
    pendingMState.inflight.length ≤ 1 ∧
    (∀ (sec : String) (st2 : MState),
        ¬ Step pendingMState (Event.startSubmit sec) st2) := by
  have h := at_most_one_pending_submission pendingMState pendingMState_reachable
  exact ⟨h.1, fun sec st2 => h.2 (by simp [pendingMState]) sec st2⟩

end ClinicalBERT
